import Mathlib

/-!
Verification development for the Snowflake dialect adapter of a
query-builder ORM.  The definitions below are a shallow embedding of the
TypeScript sources: the session/transaction layer of the snowflake driver,
the SQL compiler (dialect) for SELECT and INSERT, the column type
descriptors, and the constraint-naming helpers.  Asynchronous code is
embedded as explicit state passing over the trace of SQL statements issued
to the connection; promise rejection becomes the Except monad.
-/

namespace Drizzle.Snowflake

/-! ## Session / transaction layer (snowflake driver, SnowflakeSdkSession) -/

/-- An SQL statement text handed to the connection. -/
abbrev Stmt := String

/-- The ordered trace of statements issued to the vendor connection. -/
abbrev Trace := List Stmt

/-- Count the occurrences of a statement in a trace. -/
def countStmt (s : Stmt) : Trace → Nat
  | [] => 0
  | t :: ts => (if t = s then 1 else 0) + countStmt s ts

/-- The nested transaction handle: SnowflakeSdkTransaction carries the
connection, dialect, session and schema by reference plus a nesting
counter; only the counter is observable state of the handle itself. -/
structure SnowflakeSdkTransaction where
  nestedIndex : Nat
deriving DecidableEq

/-- Behaviour of the vendor connection: for each sqlText, either the
complete callback reports an error value or it succeeds.  The statement is
recorded on the trace in either case. -/
def connExecute {ε : Type} (beh : Stmt → Option ε) (st : Trace) (sqlText : Stmt) :
    Trace × Option ε :=
  (st ++ [sqlText], beh sqlText)

/-- SnowflakeSdkSession.transaction: issue BEGIN TRANSACTION, run the
callback with a fresh handle at nesting index 0, then COMMIT on normal
resolution; any error thrown inside the try block (callback error, and
also a COMMIT failure, which the catch block also sees) leads to a
ROLLBACK followed by re-raising the caught error; a failure of the
ROLLBACK statement itself rejects with the rollback error instead. -/
def SnowflakeSdkSession.transaction {α ε : Type} (beh : Stmt → Option ε)
    (body : SnowflakeSdkTransaction → Trace → Trace × Except ε α)
    (st : Trace) : Trace × Except ε α :=
  match connExecute beh st "BEGIN TRANSACTION" with
  | (st1, some err) => (st1, Except.error err)
  | (st1, none) =>
    match body ⟨0⟩ st1 with
    | (st2, Except.ok r) =>
      match connExecute beh st2 "COMMIT" with
      | (st3, none) => (st3, Except.ok r)
      | (st3, some commitErr) =>
        match connExecute beh st3 "ROLLBACK" with
        | (st4, some rollbackErr) => (st4, Except.error rollbackErr)
        | (st4, none) => (st4, Except.error commitErr)
    | (st2, Except.error err) =>
      match connExecute beh st2 "ROLLBACK" with
      | (st3, some rollbackErr) => (st3, Except.error rollbackErr)
      | (st3, none) => (st3, Except.error err)

/-- SnowflakeSdkTransaction.transaction: a nested transaction request
constructs a new handle on the same connection/session with the nesting
counter incremented and runs the inner callback immediately; no statement
is issued to the connection by the wrapper itself. -/
def SnowflakeSdkTransaction.transaction {α ε : Type}
    (tx : SnowflakeSdkTransaction)
    (body : SnowflakeSdkTransaction → Trace → Trace × Except ε α)
    (st : Trace) : Trace × Except ε α :=
  body ⟨tx.nestedIndex + 1⟩ st

/-- Iterated nesting: wrap a callback in k layers of nested transaction
requests. -/
def nestK {α ε : Type} (k : Nat)
    (body : SnowflakeSdkTransaction → Trace → Trace × Except ε α) :
    SnowflakeSdkTransaction → Trace → Trace × Except ε α :=
  match k with
  | 0 => body
  | k + 1 => fun tx st => SnowflakeSdkTransaction.transaction tx (nestK k body) st

/-! ## Dialect: identifier / parameter / string escaping -/

/-- SnowflakeDialect.escapeName: wrap the identifier in double quotes. -/
def escapeName (name : String) : String :=
  "\"" ++ name ++ "\""

/-- SnowflakeDialect.escapeParam: every bound value renders as the same
positionless placeholder token, ignoring its ordinal. -/
def escapeParam (_num : Nat) : String :=
  "?"

/-- SnowflakeDialect.escapeString: single-quote the literal, doubling
every embedded single quote. -/
def escapeString (str : String) : String :=
  "'" ++ (str.replace "'" "''") ++ "'"

/-! ## Dialect: SELECT compilation (validation and selection list) -/

/-- The runtime identity of a table object: effective name
(Table.Symbol.Name), original/base name (Table.Symbol.BaseName) and the
is-alias marker (Table.Symbol.IsAlias). -/
structure TsTable where
  name : String
  baseName : String
  isAlias : Bool
deriving DecidableEq

/-- getTableName reads the Table.Symbol.Name field. -/
def getTableName (t : TsTable) : String := t.name

/-- The FROM target of a SELECT descriptor: a table, a subquery (only its
alias matters to the validation), or a raw SQL fragment. -/
inductive SelectRoot where
  | table (t : TsTable)
  | subquery (al : String)
  | rawSql
deriving DecidableEq

/-- The value the validation compares a projected column against:
subquery root gives its alias, SQL root gives undefined, table root gives
getTableName. -/
def rootName : SelectRoot → Option String
  | SelectRoot.table t => some (getTableName t)
  | SelectRoot.subquery al => some al
  | SelectRoot.rawSql => none

/-- One entry of the join list; the validation only reads the alias, and
a join may carry no alias. -/
structure JoinCfg where
  joinAlias : Option String
deriving DecidableEq

/-- The name a joined table must expose for a field table to count as
joined: the effective name when the field table is an alias, its base
name otherwise. -/
def joinTarget (t : TsTable) : String :=
  if t.isAlias then getTableName t else t.baseName

/-- The join membership test from buildSelectQuery: some join in the
(possibly absent) join list has exactly the alias the field table calls
for.  An absent join list never matches. -/
def joinMatches (joins : Option (List JoinCfg)) (t : TsTable) : Bool :=
  match joins with
  | none => false
  | some js => js.any (fun j => j.joinAlias == some (joinTarget t))

/-- A projected column passes validation when its owning table is the
root table (by name) or is present in the join list. -/
def tableInQuery (root : SelectRoot) (joins : Option (List JoinCfg)) (t : TsTable) : Bool :=
  (rootName root == some (getTableName t)) || joinMatches joins t

/-- An ordered selected field: a bare column (with its path, owning table
and column name) or any other fragment-valued field (SQL, aliased SQL,
subquery), which the validation skips; the payload string stands for the
rendered fragment, whose internals live in the shared sql module. -/
inductive SelectField where
  | column (path : List String) (tbl : TsTable) (colName : String)
  | fragment (path : List String) (rendered : String)
deriving DecidableEq

/-- The error message thrown for an unresolved join reference, naming the
field path and the offending table. -/
def joinErrorMsg (path : List String) (tableName colName : String) : String :=
  "Your \"" ++ String.intercalate "->" path ++ "\" field references a column \"" ++
    tableName ++ "\".\"" ++ colName ++
    "\", but the table \"" ++ tableName ++ "\" is not part of the query! Did you forget to join it?"

/-- The per-field validation step of buildSelectQuery: a column field
whose table is neither the root nor joined produces the error message;
every other field passes. -/
def fieldViolation (root : SelectRoot) (joins : Option (List JoinCfg)) :
    SelectField → Option String
  | SelectField.column path tbl colName =>
    if tableInQuery root joins tbl then none
    else some (joinErrorMsg path (getTableName tbl) colName)
  | SelectField.fragment _ _ => none

/-- The validation loop over the ordered field list: throw at the first
offending column field, succeed when none offends. -/
def validateSelectFields (root : SelectRoot) (joins : Option (List JoinCfg)) :
    List SelectField → Except String Unit
  | [] => Except.ok ()
  | f :: fs =>
    match fieldViolation root joins f with
    | some msg => Except.error msg
    | none => validateSelectFields root joins fs

/-- A field passes the join-reference validation: fragment fields always,
column fields exactly when their owning table is part of the query. -/
def fieldOk (root : SelectRoot) (joins : Option (List JoinCfg)) : SelectField → Bool
  | SelectField.column _ t _ => tableInQuery root joins t
  | SelectField.fragment _ _ => true

/-- isSingleTable in buildSelectQuery: no join list, or an empty one. -/
def isSingleTable (joins : Option (List JoinCfg)) : Bool :=
  match joins with
  | none => true
  | some js => js.isEmpty

/-- A chunk of the selection fragment produced by buildSelection: raw
text, a bare identifier (sql.identifier), or a column object pushed
directly (rendered table-qualified by the fragment serializer). -/
inductive Chunk where
  | raw (s : String)
  | ident (s : String)
  | columnRef (tbl : TsTable) (colName : String)
deriving DecidableEq

/-- Chunks buildSelection emits for one field.  A bare column becomes an
unqualified identifier when the query is single-table (the casing cache
with no casing configured yields the column name), and the column object
itself otherwise.  Fragment fields are abstracted to their rendered
text. -/
def selectionChunksFor (singleTbl : Bool) : SelectField → List Chunk
  | SelectField.column _ tbl colName =>
    if singleTbl then [Chunk.ident colName] else [Chunk.columnRef tbl colName]
  | SelectField.fragment _ rendered => [Chunk.raw rendered]

/-- SnowflakeDialect.buildSelection: per-field chunks joined with comma
separators between consecutive fields. -/
def buildSelection (singleTbl : Bool) : List SelectField → List Chunk
  | [] => []
  | [f] => selectionChunksFor singleTbl f
  | f :: fs => selectionChunksFor singleTbl f ++ [Chunk.raw ", "] ++ buildSelection singleTbl fs

/-- SnowflakeDialect.buildSelectQuery restricted to what the claims
observe: validate every projected field, then build the selection list
with the single-table flag. -/
def buildSelectQuery (root : SelectRoot) (joins : Option (List JoinCfg))
    (fields : List SelectField) : Except String (List Chunk) :=
  match validateSelectFields root joins fields with
  | Except.error msg => Except.error msg
  | Except.ok () => Except.ok (buildSelection (isSingleTable joins) fields)

/-- Modelled from the spec: the final fragment serializer lives in the
shared sql template module, which is not among the given sources; per the
spec, a bare column chunk is auto-qualified with its table alias
(identifier dot identifier, through escapeName), while sql.identifier
chunks render through escapeName alone and raw text passes through. -/
def renderChunk : Chunk → String
  | Chunk.raw s => s
  | Chunk.ident s => escapeName s
  | Chunk.columnRef tbl colName => escapeName (getTableName tbl) ++ "." ++ escapeName colName

/-- Render a chunk list to final SQL text. -/
def renderChunks (cs : List Chunk) : String :=
  String.join (cs.map renderChunk)

/-! ## Dialect: INSERT value fallback -/

/-- A JavaScript-like runtime value, enough to express truthiness. -/
inductive JsVal where
  | num (n : Int)
  | str (s : String)
  | boolVal (b : Bool)
  | jsNull
deriving DecidableEq

/-- JavaScript truthiness of a value. -/
def JsVal.truthy : JsVal → Bool
  | JsVal.num n => n != 0
  | JsVal.str s => s != ""
  | JsVal.boolVal b => b
  | JsVal.jsNull => false

/-- JavaScript falsiness of a possibly-undefined value: undefined and
falsy values are both falsy, which is exactly what the bang operator on
col.default tests. -/
def jsFalsyOpt : Option JsVal → Bool
  | none => true
  | some v => !v.truthy

/-- A column as buildInsertQuery consumes it: the name keying the row
record, the result the default-generator function would produce when one
is configured, the static default value (col.default), the result the
update-generator function would produce when one is configured, and the
insert-disabled flag. -/
structure InsertColumn where
  name : String
  defaultFn : Option JsVal
  defaultVal : Option JsVal
  onUpdateFn : Option JsVal
  disableInsert : Bool
deriving DecidableEq

/-- A value bound for a column in one VALUES row: a Param object whose
inner value may itself be undefined, or an SQL fragment. -/
inductive BoundValue where
  | param (v : Option JsVal)
  | sqlExpr (s : String)
deriving DecidableEq

/-- The test buildInsertQuery applies to a present binding: a Param
carrying undefined counts as absent. -/
def isUndefinedParam : BoundValue → Bool
  | BoundValue.param none => true
  | _ => false

/-- The emitted value slot for one column of one row. -/
inductive InsertValue where
  | bound (v : BoundValue)
  | fromDefaultFn (v : JsVal)
  | fromOnUpdateFn (v : JsVal)
  | defaultKeyword
deriving DecidableEq

/-- The fallback chain when no usable binding was supplied: the
default-generator result if configured, else the update-generator result
when one is configured and col.default is falsy (the code tests the bang
of col.default, not its mere presence), else the literal DEFAULT
keyword. -/
def insertFallback (col : InsertColumn) : InsertValue :=
  match col.defaultFn with
  | some v => InsertValue.fromDefaultFn v
  | none =>
    match col.onUpdateFn, jsFalsyOpt col.defaultVal with
    | some u, true => InsertValue.fromOnUpdateFn u
    | _, _ => InsertValue.defaultKeyword

/-- The value buildInsertQuery emits for one column of one row: the
explicit binding when present and not an undefined Param, the fallback
chain otherwise. -/
def insertValueFor (col : InsertColumn) (supplied : Option BoundValue) : InsertValue :=
  match supplied with
  | none => insertFallback col
  | some v => if isUndefinedParam v then insertFallback col else InsertValue.bound v

/-- The insert-enabled column entries of a table, in declaration order:
columns whose shouldDisableInsert is set are excluded entirely. -/
def insertColEntries (cols : List InsertColumn) : List InsertColumn :=
  cols.filter (fun c => !c.disableInsert)

/-- The VALUES row buildInsertQuery emits for one supplied row record. -/
def buildInsertRow (cols : List InsertColumn) (row : String → Option BoundValue) :
    List InsertValue :=
  (insertColEntries cols).map (fun c => insertValueFor c (row c.name))

/-! ## Column type descriptors: getSQLType -/

/-- SnowflakeVarchar.getSQLType over the length configuration. -/
def SnowflakeVarchar.getSQLType (length : Option Nat) : String :=
  match length with
  | none => "varchar"
  | some l => "varchar(" ++ toString l ++ ")"

/-- SnowflakeNumber.getSQLType over precision and scale. -/
def SnowflakeNumber.getSQLType (precision scale : Option Nat) : String :=
  match precision, scale with
  | some p, some s => "number(" ++ toString p ++ ", " ++ toString s ++ ")"
  | some p, none => "number(" ++ toString p ++ ")"
  | none, _ => "number"

/-- SnowflakeTimestamp.getSQLType over the with-timezone flag and the
precision configuration. -/
def SnowflakeTimestamp.getSQLType (withTimezone : Bool) (precision : Option Nat) : String :=
  let precStr := match precision with
    | none => ""
    | some p => "(" ++ toString p ++ ")"
  if withTimezone then "timestamp_tz" ++ precStr else "timestamp_ntz" ++ precStr

/-! ## Constraint naming -/

/-- uniqueKeyName: table name, column names and the unique suffix joined
with underscores. -/
def uniqueKeyName (tableName : String) (columns : List String) : String :=
  tableName ++ "_" ++ String.intercalate "_" columns ++ "_unique"

/-- The unique-constraint name the SnowflakeColumn constructor leaves in
the config: kept when a truthy name was supplied, derived through
uniqueKeyName from the table and column name otherwise (the code tests
the bang of config.uniqueName, so the empty string also triggers the
derivation). -/
def resolvedUniqueName (tableName colName : String) (configUniqueName : Option String) : String :=
  match configUniqueName with
  | none => uniqueKeyName tableName [colName]
  | some s => if s = "" then uniqueKeyName tableName [colName] else s

/-- ForeignKey.getName: the owning table name, the referencing column
names, the foreign table name and the foreign column names joined with
underscores, with the fk suffix appended. -/
def ForeignKey.getName (tableName : String) (columnNames : List String)
    (foreignTableName : String) (foreignColumnNames : List String) : String :=
  String.intercalate "_"
      ([tableName] ++ columnNames ++ [foreignTableName] ++ foreignColumnNames)
    ++ "_fk"

/-! ## ForeignKeyBuilder constructor -/

/-- The referential action vocabulary. -/
inductive UpdateDeleteAction where
  | cascade
  | restrict
  | noAction
  | setNull
  | setDefault
deriving DecidableEq

/-- The actions object optionally passed to the ForeignKeyBuilder
constructor; each field may be absent. -/
structure FKActions where
  onUpdate : Option UpdateDeleteAction
  onDelete : Option UpdateDeleteAction
deriving DecidableEq

/-- The observable state the ForeignKeyBuilder constructor leaves behind:
the two action fields. -/
structure ForeignKeyBuilderState where
  onUpdateAction : Option UpdateDeleteAction
  onDeleteAction : Option UpdateDeleteAction
deriving DecidableEq

/-- ForeignKeyBuilder constructor: both fields start at the no-action
default; when an actions object is passed (any object is truthy), both
fields are overwritten verbatim with its possibly-absent members. -/
def ForeignKeyBuilder.init (actions : Option FKActions) : ForeignKeyBuilderState :=
  match actions with
  | none =>
    { onUpdateAction := some UpdateDeleteAction.noAction
      onDeleteAction := some UpdateDeleteAction.noAction }
  | some a => { onUpdateAction := a.onUpdate, onDeleteAction := a.onDelete }

/-! ## Helper lemmas -/

theorem countStmt_append (s : Stmt) (l1 l2 : Trace) :
    countStmt s (l1 ++ l2) = countStmt s l1 + countStmt s l2 := by
  induction l1 with
  | nil => simp [countStmt]
  | cons t ts ih => simp [countStmt, ih, Nat.add_assoc]

theorem countStmt_eq_zero {s : Stmt} {l : Trace} (h : ∀ x ∈ l, x ≠ s) :
    countStmt s l = 0 := by
  induction l with
  | nil => rfl
  | cons t ts ih =>
    have ht : t ≠ s := h t (List.mem_cons_self t ts)
    have hts : ∀ x ∈ ts, x ≠ s := fun x hx => h x (List.mem_cons_of_mem t hx)
    simp [countStmt, ht, ih hts]

theorem countStmt_sandwich (a b : Stmt) (mid : Trace) (s : Stmt)
    (hmid : ∀ x ∈ mid, x ≠ s) :
    countStmt s (a :: mid ++ [b]) =
      (if a = s then 1 else 0) + (if b = s then 1 else 0) := by
  simp [countStmt, countStmt_append, countStmt_eq_zero hmid]

theorem nestK_apply {α ε : Type}
    (body : SnowflakeSdkTransaction → Trace → Trace × Except ε α)
    (k : Nat) (tx : SnowflakeSdkTransaction) (st : Trace) :
    nestK k body tx st = body ⟨tx.nestedIndex + k⟩ st := by
  induction k generalizing tx with
  | zero => simp [nestK]
  | succ k ih =>
    show SnowflakeSdkTransaction.transaction tx (nestK k body) st = _
    rw [SnowflakeSdkTransaction.transaction, ih]
    have harith : tx.nestedIndex + 1 + k = tx.nestedIndex + (k + 1) := by omega
    simp [harith]

theorem transaction_ok_trace {α ε : Type} (beh : Stmt → Option ε)
    (body : SnowflakeSdkTransaction → Trace → Trace × Except ε α)
    (bodyStmts : Trace) (r : α)
    (hBegin : beh "BEGIN TRANSACTION" = none)
    (hCommit : beh "COMMIT" = none)
    (hBody : ∀ tx st, body tx st = (st ++ bodyStmts, Except.ok r)) :
    SnowflakeSdkSession.transaction beh body [] =
      ("BEGIN TRANSACTION" :: bodyStmts ++ ["COMMIT"], Except.ok r) := by
  simp [SnowflakeSdkSession.transaction, connExecute, hBegin, hCommit, hBody]

theorem transaction_error_trace {α ε : Type} (beh : Stmt → Option ε)
    (body : SnowflakeSdkTransaction → Trace → Trace × Except ε α)
    (bodyStmts : Trace) (e : ε)
    (hBegin : beh "BEGIN TRANSACTION" = none)
    (hBody : ∀ tx st, body tx st = (st ++ bodyStmts, (Except.error e : Except ε α))) :
    SnowflakeSdkSession.transaction beh body [] =
      ("BEGIN TRANSACTION" :: bodyStmts ++ ["ROLLBACK"],
        match beh "ROLLBACK" with
        | some rollbackErr => Except.error rollbackErr
        | none => Except.error e) := by
  cases hR : beh "ROLLBACK" with
  | none => simp [SnowflakeSdkSession.transaction, connExecute, hBegin, hBody, hR]
  | some rollbackErr => simp [SnowflakeSdkSession.transaction, connExecute, hBegin, hBody, hR]

/-! ## Claim theorems -/

/-- C3: for a top-level transaction whose callback resolves normally
(appending its own statements to the trace and returning a result), the
session issues exactly BEGIN TRANSACTION, then the callback statements,
then COMMIT — one BEGIN TRANSACTION, one COMMIT, no ROLLBACK — and the
callback result is returned to the caller. -/
theorem snowflake_c3 {α ε : Type} (beh : Stmt → Option ε)
    (body : SnowflakeSdkTransaction → Trace → Trace × Except ε α)
    (bodyStmts : Trace) (r : α)
    (hBegin : beh "BEGIN TRANSACTION" = none)
    (hCommit : beh "COMMIT" = none)
    (hBody : ∀ tx st, body tx st = (st ++ bodyStmts, Except.ok r))
    (hNoCtl : ∀ s ∈ bodyStmts,
      s ≠ "BEGIN TRANSACTION" ∧ s ≠ "COMMIT" ∧ s ≠ "ROLLBACK") :
    SnowflakeSdkSession.transaction beh body [] =
        ("BEGIN TRANSACTION" :: bodyStmts ++ ["COMMIT"], Except.ok r)
      ∧ countStmt "BEGIN TRANSACTION" (SnowflakeSdkSession.transaction beh body []).1 = 1
      ∧ countStmt "COMMIT" (SnowflakeSdkSession.transaction beh body []).1 = 1
      ∧ countStmt "ROLLBACK" (SnowflakeSdkSession.transaction beh body []).1 = 0 := by
  have htrace := transaction_ok_trace beh body bodyStmts r hBegin hCommit hBody
  refine ⟨htrace, ?_, ?_, ?_⟩ <;> rw [htrace]
  · rw [countStmt_sandwich _ _ _ _ (fun x hx => (hNoCtl x hx).1)]; decide
  · rw [countStmt_sandwich _ _ _ _ (fun x hx => (hNoCtl x hx).2.1)]; decide
  · rw [countStmt_sandwich _ _ _ _ (fun x hx => (hNoCtl x hx).2.2)]; decide

/-- C3 witness: a concrete successful transaction body issuing a single
INSERT statement. -/
theorem snowflake_c3_witness :
    SnowflakeSdkSession.transaction (fun _ => (none : Option Unit))
        (fun _ st => (st ++ ["INSERT INTO t"], Except.ok (7 : Nat))) [] =
        ("BEGIN TRANSACTION" :: ["INSERT INTO t"] ++ ["COMMIT"], Except.ok 7)
      ∧ countStmt "BEGIN TRANSACTION"
          (SnowflakeSdkSession.transaction (fun _ => (none : Option Unit))
            (fun _ st => (st ++ ["INSERT INTO t"], Except.ok (7 : Nat))) []).1 = 1
      ∧ countStmt "COMMIT"
          (SnowflakeSdkSession.transaction (fun _ => (none : Option Unit))
            (fun _ st => (st ++ ["INSERT INTO t"], Except.ok (7 : Nat))) []).1 = 1
      ∧ countStmt "ROLLBACK"
          (SnowflakeSdkSession.transaction (fun _ => (none : Option Unit))
            (fun _ st => (st ++ ["INSERT INTO t"], Except.ok (7 : Nat))) []).1 = 0 :=
  snowflake_c3 (fun _ => none) (fun _ st => (st ++ ["INSERT INTO t"], Except.ok 7))
    ["INSERT INTO t"] 7 rfl rfl (fun _ _ => rfl) (by decide)

/-- C2: for a top-level transaction whose callback raises an error, the
session issues exactly one ROLLBACK after BEGIN TRANSACTION and the
callback statements, never a COMMIT, and re-raises the original error;
when the ROLLBACK statement itself fails, the rollback error propagates
to the caller instead of the original one. -/
theorem snowflake_c2 {α ε : Type} (beh : Stmt → Option ε)
    (body : SnowflakeSdkTransaction → Trace → Trace × Except ε α)
    (bodyStmts : Trace) (e : ε)
    (hBegin : beh "BEGIN TRANSACTION" = none)
    (hBody : ∀ tx st, body tx st = (st ++ bodyStmts, (Except.error e : Except ε α)))
    (hNoCtl : ∀ s ∈ bodyStmts,
      s ≠ "BEGIN TRANSACTION" ∧ s ≠ "COMMIT" ∧ s ≠ "ROLLBACK") :
    (beh "ROLLBACK" = none →
      SnowflakeSdkSession.transaction beh body [] =
          ("BEGIN TRANSACTION" :: bodyStmts ++ ["ROLLBACK"], Except.error e)
        ∧ countStmt "ROLLBACK" (SnowflakeSdkSession.transaction beh body []).1 = 1
        ∧ countStmt "COMMIT" (SnowflakeSdkSession.transaction beh body []).1 = 0
        ∧ countStmt "BEGIN TRANSACTION" (SnowflakeSdkSession.transaction beh body []).1 = 1)
    ∧ (∀ rollbackErr, beh "ROLLBACK" = some rollbackErr →
        SnowflakeSdkSession.transaction beh body [] =
          ("BEGIN TRANSACTION" :: bodyStmts ++ ["ROLLBACK"], Except.error rollbackErr)) := by
  have htrace := transaction_error_trace beh body bodyStmts e hBegin hBody
  constructor
  · intro hR
    rw [hR] at htrace
    refine ⟨htrace, ?_, ?_, ?_⟩ <;> rw [htrace]
    · rw [countStmt_sandwich _ _ _ _ (fun x hx => (hNoCtl x hx).2.2)]; decide
    · rw [countStmt_sandwich _ _ _ _ (fun x hx => (hNoCtl x hx).2.1)]; decide
    · rw [countStmt_sandwich _ _ _ _ (fun x hx => (hNoCtl x hx).1)]; decide
  · intro rollbackErr hR
    rw [hR] at htrace
    exact htrace

/-- C2 witness: a concrete failing transaction body, once under a
connection whose ROLLBACK succeeds (original error re-raised) and once
under a connection whose ROLLBACK fails (rollback error masks it). -/
theorem snowflake_c2_witness :
    SnowflakeSdkSession.transaction (fun _ => (none : Option Nat))
        (fun _ st => (st ++ ["DELETE FROM t"], (Except.error 5 : Except Nat Nat))) [] =
        ("BEGIN TRANSACTION" :: ["DELETE FROM t"] ++ ["ROLLBACK"], Except.error 5)
      ∧ countStmt "ROLLBACK"
          (SnowflakeSdkSession.transaction (fun _ => (none : Option Nat))
            (fun _ st => (st ++ ["DELETE FROM t"], (Except.error 5 : Except Nat Nat))) []).1 = 1
      ∧ countStmt "COMMIT"
          (SnowflakeSdkSession.transaction (fun _ => (none : Option Nat))
            (fun _ st => (st ++ ["DELETE FROM t"], (Except.error 5 : Except Nat Nat))) []).1 = 0
      ∧ countStmt "BEGIN TRANSACTION"
          (SnowflakeSdkSession.transaction (fun _ => (none : Option Nat))
            (fun _ st => (st ++ ["DELETE FROM t"], (Except.error 5 : Except Nat Nat))) []).1 = 1
      ∧ SnowflakeSdkSession.transaction
          (fun s => if s = "ROLLBACK" then some 9 else (none : Option Nat))
          (fun _ st => (st ++ ["DELETE FROM t"], (Except.error 5 : Except Nat Nat))) [] =
          ("BEGIN TRANSACTION" :: ["DELETE FROM t"] ++ ["ROLLBACK"], Except.error 9) := by
  have h1 := (snowflake_c2 (fun _ => (none : Option Nat))
      (fun _ st => (st ++ ["DELETE FROM t"], (Except.error 5 : Except Nat Nat)))
      ["DELETE FROM t"] 5 rfl (fun _ _ => rfl) (by decide)).1 rfl
  have h2 := (snowflake_c2 (fun s => if s = "ROLLBACK" then some 9 else (none : Option Nat))
      (fun _ st => (st ++ ["DELETE FROM t"], (Except.error 5 : Except Nat Nat)))
      ["DELETE FROM t"] 5 (by decide) (fun _ _ => rfl) (by decide)).2 9 (by decide)
  exact ⟨h1.1, h1.2.1, h1.2.2.1, h1.2.2.2, h2⟩

/-- C1: a nested transaction request constructs a handle on the same
session with the nesting counter incremented and runs the inner callback
immediately on the unchanged trace, issuing no statement of its own; at
any nesting depth k, the whole operation still issues exactly one BEGIN
TRANSACTION and one COMMIT and no ROLLBACK. -/
theorem snowflake_c1 {α ε : Type} (beh : Stmt → Option ε)
    (inner : SnowflakeSdkTransaction → Trace → Trace × Except ε α)
    (innerStmts : Trace) (r : α)
    (hBegin : beh "BEGIN TRANSACTION" = none)
    (hCommit : beh "COMMIT" = none)
    (hInner : ∀ tx st, inner tx st = (st ++ innerStmts, Except.ok r))
    (hNoCtl : ∀ s ∈ innerStmts,
      s ≠ "BEGIN TRANSACTION" ∧ s ≠ "COMMIT" ∧ s ≠ "ROLLBACK") :
    (∀ tx st, SnowflakeSdkTransaction.transaction tx inner st =
        inner ⟨tx.nestedIndex + 1⟩ st)
    ∧ ∀ k,
        SnowflakeSdkSession.transaction beh (nestK k inner) [] =
            ("BEGIN TRANSACTION" :: innerStmts ++ ["COMMIT"], Except.ok r)
          ∧ countStmt "BEGIN TRANSACTION"
              (SnowflakeSdkSession.transaction beh (nestK k inner) []).1 = 1
          ∧ countStmt "COMMIT"
              (SnowflakeSdkSession.transaction beh (nestK k inner) []).1 = 1
          ∧ countStmt "ROLLBACK"
              (SnowflakeSdkSession.transaction beh (nestK k inner) []).1 = 0 := by
  constructor
  · intro tx st
    rfl
  · intro k
    have hNest : ∀ tx st, nestK k inner tx st = (st ++ innerStmts, Except.ok r) := by
      intro tx st
      rw [nestK_apply]
      exact hInner _ _
    have htrace := transaction_ok_trace beh (nestK k inner) innerStmts r hBegin hCommit hNest
    refine ⟨htrace, ?_, ?_, ?_⟩ <;> rw [htrace]
    · rw [countStmt_sandwich _ _ _ _ (fun x hx => (hNoCtl x hx).1)]; decide
    · rw [countStmt_sandwich _ _ _ _ (fun x hx => (hNoCtl x hx).2.1)]; decide
    · rw [countStmt_sandwich _ _ _ _ (fun x hx => (hNoCtl x hx).2.2)]; decide

/-- C1 witness: a concrete inner callback, run once directly through the
nested-transaction wrapper and once at nesting depth one inside a
top-level transaction. -/
theorem snowflake_c1_witness :
    SnowflakeSdkTransaction.transaction ⟨0⟩
        (fun _ st => (st ++ ["UPDATE t"], (Except.ok 3 : Except Unit Nat)))
        ["BEGIN TRANSACTION"] =
      (fun (_ : SnowflakeSdkTransaction) st =>
        (st ++ ["UPDATE t"], (Except.ok 3 : Except Unit Nat))) ⟨0 + 1⟩ ["BEGIN TRANSACTION"]
    ∧ (SnowflakeSdkSession.transaction (fun _ => (none : Option Unit))
          (nestK 1 (fun _ st => (st ++ ["UPDATE t"], Except.ok (3 : Nat)))) [] =
            ("BEGIN TRANSACTION" :: ["UPDATE t"] ++ ["COMMIT"], Except.ok 3)
        ∧ countStmt "BEGIN TRANSACTION"
            (SnowflakeSdkSession.transaction (fun _ => (none : Option Unit))
              (nestK 1 (fun _ st => (st ++ ["UPDATE t"], Except.ok (3 : Nat)))) []).1 = 1
        ∧ countStmt "COMMIT"
            (SnowflakeSdkSession.transaction (fun _ => (none : Option Unit))
              (nestK 1 (fun _ st => (st ++ ["UPDATE t"], Except.ok (3 : Nat)))) []).1 = 1
        ∧ countStmt "ROLLBACK"
            (SnowflakeSdkSession.transaction (fun _ => (none : Option Unit))
              (nestK 1 (fun _ st => (st ++ ["UPDATE t"], Except.ok (3 : Nat)))) []).1 = 0) :=
  ⟨(snowflake_c1 (fun _ => none) (fun _ st => (st ++ ["UPDATE t"], Except.ok 3))
      ["UPDATE t"] 3 rfl rfl (fun _ _ => rfl) (by decide)).1 ⟨0⟩ ["BEGIN TRANSACTION"],
    (snowflake_c1 (fun _ => none) (fun _ st => (st ++ ["UPDATE t"], Except.ok 3))
      ["UPDATE t"] 3 rfl rfl (fun _ _ => rfl) (by decide)).2 1⟩

theorem validate_append_error (root : SelectRoot) (joins : Option (List JoinCfg))
    (pre post : List SelectField) (f : SelectField) (msg : String)
    (hpre : ∀ g ∈ pre, fieldViolation root joins g = none)
    (hf : fieldViolation root joins f = some msg) :
    validateSelectFields root joins (pre ++ f :: post) = Except.error msg := by
  induction pre with
  | nil => simp [validateSelectFields, hf]
  | cons g gs ih =>
    have hg : fieldViolation root joins g = none := hpre g (List.mem_cons_self g gs)
    simp only [List.cons_append, validateSelectFields, hg]
    exact ih (fun x hx => hpre x (List.mem_cons_of_mem g hx))

theorem validate_ok (root : SelectRoot) (joins : Option (List JoinCfg))
    (fields : List SelectField)
    (h : ∀ f ∈ fields, fieldViolation root joins f = none) :
    validateSelectFields root joins fields = Except.ok () := by
  induction fields with
  | nil => rfl
  | cons f fs ih =>
    have hf := h f (List.mem_cons_self f fs)
    simp only [validateSelectFields, hf]
    exact ih (fun x hx => h x (List.mem_cons_of_mem f hx))

/-- C4: a SELECT descriptor containing a projected column whose owning
table is neither the root table nor present in the join list makes
buildSelectQuery fail before emitting SQL, with the error message built
from the offending field path and the table; when every projected column
passes the check, no error is raised and compilation proceeds to the
selection list. -/
theorem snowflake_c4 (root : SelectRoot) (joins : Option (List JoinCfg))
    (pre post : List SelectField) (path : List String) (tbl : TsTable) (nm : String)
    (hpre : ∀ g ∈ pre, fieldViolation root joins g = none) :
    (tableInQuery root joins tbl = false →
      buildSelectQuery root joins (pre ++ SelectField.column path tbl nm :: post) =
        Except.error (joinErrorMsg path (getTableName tbl) nm))
    ∧ ∀ fields : List SelectField,
        fields.all (fieldOk root joins) = true →
        buildSelectQuery root joins fields =
          Except.ok (buildSelection (isSingleTable joins) fields) := by
  constructor
  · intro hbad
    have hf : fieldViolation root joins (SelectField.column path tbl nm) =
        some (joinErrorMsg path (getTableName tbl) nm) := by
      simp [fieldViolation, hbad]
    simp [buildSelectQuery, validate_append_error root joins pre post _ _ hpre hf]
  · intro fields hok
    have hnone : ∀ f ∈ fields, fieldViolation root joins f = none := by
      intro f hfmem
      have hfok := List.all_eq_true.mp hok f hfmem
      cases f with
      | column p t c =>
        simp only [fieldOk] at hfok
        simp [fieldViolation, hfok]
      | fragment p s => rfl
    simp [buildSelectQuery, validate_ok root joins fields hnone]

/-- C4 witness: a column of an unjoined table is rejected with the
documented message, while a root-table column compiles. -/
theorem snowflake_c4_witness :
    buildSelectQuery (SelectRoot.table ⟨"users", "users", false⟩) none
        [SelectField.column ["title"] ⟨"posts", "posts", false⟩ "title"] =
      Except.error (joinErrorMsg ["title"] "posts" "title")
    ∧ buildSelectQuery (SelectRoot.table ⟨"users", "users", false⟩) none
        [SelectField.column ["id"] ⟨"users", "users", false⟩ "id"] =
      Except.ok (buildSelection (isSingleTable none)
        [SelectField.column ["id"] ⟨"users", "users", false⟩ "id"]) := by
  have h := snowflake_c4 (SelectRoot.table ⟨"users", "users", false⟩) none [] []
    ["title"] ⟨"posts", "posts", false⟩ "title"
    (fun g hg => absurd hg (List.not_mem_nil g))
  exact ⟨h.1 (by decide),
    h.2 [SelectField.column ["id"] ⟨"users", "users", false⟩ "id"] (by decide)⟩

/-- C5: with no joins (an absent or empty join list) the selection list
renders a projected bare column as an unqualified identifier carrying only
the column name, while with at least one join the same column is pushed as
a column object and rendered table-qualified; consecutive fields are
comma-separated. -/
theorem snowflake_c5 (p q : List String) (t : TsTable) (nm nm2 : String)
    (js : List JoinCfg) (f g : SelectField) (single : Bool) (hjs : js ≠ []) :
    isSingleTable none = true
    ∧ isSingleTable (some []) = true
    ∧ isSingleTable (some js) = false
    ∧ selectionChunksFor (isSingleTable (some [])) (SelectField.column p t nm) =
        [Chunk.ident nm]
    ∧ renderChunk (Chunk.ident nm) = escapeName nm
    ∧ selectionChunksFor (isSingleTable (some js)) (SelectField.column p t nm) =
        [Chunk.columnRef t nm]
    ∧ renderChunk (Chunk.columnRef t nm) =
        escapeName (getTableName t) ++ "." ++ escapeName nm
    ∧ buildSelection single [f] = selectionChunksFor single f
    ∧ buildSelection single [f, g] =
        selectionChunksFor single f ++ [Chunk.raw ", "] ++ selectionChunksFor single g
    ∧ buildSelection (isSingleTable (some js))
          [SelectField.column p t nm, SelectField.column q t nm2] =
        [Chunk.columnRef t nm, Chunk.raw ", ", Chunk.columnRef t nm2] := by
  have hjs' : isSingleTable (some js) = false := by
    cases js with
    | nil => exact absurd rfl hjs
    | cons a as => rfl
  refine ⟨rfl, rfl, hjs', rfl, rfl, ?_, rfl, rfl, rfl, ?_⟩
  · rw [hjs']
    rfl
  · rw [hjs']
    rfl

/-- C5 witness: two concrete columns, unqualified without joins and
qualified under a one-element join list. -/
theorem snowflake_c5_witness :
    isSingleTable none = true
    ∧ isSingleTable (some []) = true
    ∧ isSingleTable (some [⟨some "posts"⟩]) = false
    ∧ selectionChunksFor (isSingleTable (some []))
          (SelectField.column ["id"] ⟨"users", "users", false⟩ "id") =
        [Chunk.ident "id"]
    ∧ renderChunk (Chunk.ident "id") = escapeName "id"
    ∧ selectionChunksFor (isSingleTable (some [⟨some "posts"⟩]))
          (SelectField.column ["id"] ⟨"users", "users", false⟩ "id") =
        [Chunk.columnRef ⟨"users", "users", false⟩ "id"]
    ∧ renderChunk (Chunk.columnRef ⟨"users", "users", false⟩ "id") =
        escapeName (getTableName ⟨"users", "users", false⟩) ++ "." ++ escapeName "id"
    ∧ buildSelection true [SelectField.column ["id"] ⟨"users", "users", false⟩ "id"] =
        selectionChunksFor true
          (SelectField.column ["id"] ⟨"users", "users", false⟩ "id")
    ∧ buildSelection true
          [SelectField.column ["id"] ⟨"users", "users", false⟩ "id",
            SelectField.column ["name"] ⟨"users", "users", false⟩ "name"] =
        selectionChunksFor true
            (SelectField.column ["id"] ⟨"users", "users", false⟩ "id")
          ++ [Chunk.raw ", "]
          ++ selectionChunksFor true
              (SelectField.column ["name"] ⟨"users", "users", false⟩ "name")
    ∧ buildSelection (isSingleTable (some [⟨some "posts"⟩]))
          [SelectField.column ["id"] ⟨"users", "users", false⟩ "id",
            SelectField.column ["name"] ⟨"users", "users", false⟩ "name"] =
        [Chunk.columnRef ⟨"users", "users", false⟩ "id", Chunk.raw ", ",
          Chunk.columnRef ⟨"users", "users", false⟩ "name"] :=
  snowflake_c5 ["id"] ["name"] ⟨"users", "users", false⟩ "id" "name"
    [⟨some "posts"⟩]
    (SelectField.column ["id"] ⟨"users", "users", false⟩ "id")
    (SelectField.column ["name"] ⟨"users", "users", false⟩ "name")
    true (by decide)

/-- C6 counterexample: a column with a configured static default of 0
(a falsy value), no default-generator and a configured update-generator
receives the update-generator result, not the literal DEFAULT keyword the
claim prescribes when a static default is configured. -/
theorem snowflake_c6_counterexample :
    insertValueFor
        { name := "touched", defaultFn := none, defaultVal := some (JsVal.num 0),
          onUpdateFn := some (JsVal.num 99), disableInsert := false } none =
      InsertValue.fromOnUpdateFn (JsVal.num 99)
    ∧ insertValueFor
        { name := "touched", defaultFn := none, defaultVal := some (JsVal.num 0),
          onUpdateFn := some (JsVal.num 99), disableInsert := false } none ≠
      InsertValue.defaultKeyword := by
  decide

/-- C6 (amended): the emitted value falls back in order from the explicit
binding (a Param carrying undefined counts as absent) to the
default-generator result, then to the update-generator result — but only
when the configured static default is absent or falsy, since the code
tests JavaScript falsiness of col.default rather than its presence — and
finally to the literal DEFAULT keyword. -/
theorem snowflake_c6 (col : InsertColumn) (supplied : Option BoundValue) :
    (∀ v, supplied = some v → isUndefinedParam v = false →
      insertValueFor col supplied = InsertValue.bound v)
    ∧ ((supplied = none ∨ supplied = some (BoundValue.param none)) →
        (∀ d, col.defaultFn = some d →
            insertValueFor col supplied = InsertValue.fromDefaultFn d)
          ∧ (col.defaultFn = none →
              ∀ u, col.onUpdateFn = some u → jsFalsyOpt col.defaultVal = true →
                insertValueFor col supplied = InsertValue.fromOnUpdateFn u)
          ∧ (col.defaultFn = none →
              (col.onUpdateFn = none ∨ jsFalsyOpt col.defaultVal = false) →
                insertValueFor col supplied = InsertValue.defaultKeyword)) := by
  constructor
  · intro v hv hnotundef
    subst hv
    simp [insertValueFor, hnotundef]
  · intro hmiss
    have hfall : insertValueFor col supplied = insertFallback col := by
      rcases hmiss with h | h <;> subst h <;> simp [insertValueFor, isUndefinedParam]
    refine ⟨?_, ?_, ?_⟩
    · intro d hd
      rw [hfall]
      simp [insertFallback, hd]
    · intro hdf u hu hfalsy
      rw [hfall]
      simp [insertFallback, hdf, hu, hfalsy]
    · intro hdf hcase
      rw [hfall]
      rcases hcase with h | h
      · simp [insertFallback, hdf, h]
      · cases hu : col.onUpdateFn with
        | none => simp [insertFallback, hdf, hu]
        | some u => simp [insertFallback, hdf, hu, h]

/-- C6 witness: each branch of the fallback order at a concrete column
and binding. -/
theorem snowflake_c6_witness :
    insertValueFor
        { name := "a", defaultFn := none, defaultVal := none,
          onUpdateFn := none, disableInsert := false }
        (some (BoundValue.param (some (JsVal.num 1)))) =
      InsertValue.bound (BoundValue.param (some (JsVal.num 1)))
    ∧ insertValueFor
        { name := "b", defaultFn := some (JsVal.num 7), defaultVal := none,
          onUpdateFn := none, disableInsert := false } none =
      InsertValue.fromDefaultFn (JsVal.num 7)
    ∧ insertValueFor
        { name := "c", defaultFn := none, defaultVal := none,
          onUpdateFn := some (JsVal.num 9), disableInsert := false } none =
      InsertValue.fromOnUpdateFn (JsVal.num 9)
    ∧ insertValueFor
        { name := "d", defaultFn := none, defaultVal := some (JsVal.num 1),
          onUpdateFn := some (JsVal.num 9), disableInsert := false } none =
      InsertValue.defaultKeyword := by
  refine ⟨?_, ?_, ?_, ?_⟩
  · exact (snowflake_c6
      { name := "a", defaultFn := none, defaultVal := none,
        onUpdateFn := none, disableInsert := false }
      (some (BoundValue.param (some (JsVal.num 1))))).1
      (BoundValue.param (some (JsVal.num 1))) rfl (by decide)
  · exact ((snowflake_c6
      { name := "b", defaultFn := some (JsVal.num 7), defaultVal := none,
        onUpdateFn := none, disableInsert := false } none).2
      (Or.inl rfl)).1 (JsVal.num 7) rfl
  · exact ((snowflake_c6
      { name := "c", defaultFn := none, defaultVal := none,
        onUpdateFn := some (JsVal.num 9), disableInsert := false } none).2
      (Or.inl rfl)).2.1 rfl (JsVal.num 9) rfl (by decide)
  · exact ((snowflake_c6
      { name := "d", defaultFn := none, defaultVal := some (JsVal.num 1),
        onUpdateFn := some (JsVal.num 9), disableInsert := false } none).2
      (Or.inl rfl)).2.2 rfl (Or.inr (by decide))

/-- C7: getSQLType output of the column type descriptors matches the
documented grammar at the specified configurations — varchar with and
without a length, number with precision and scale and without a config,
timestamp without config, with precision 6, and with the timezone
flag. -/
theorem snowflake_c7 :
    SnowflakeVarchar.getSQLType (some 255) = "varchar(255)"
    ∧ SnowflakeVarchar.getSQLType none = "varchar"
    ∧ SnowflakeNumber.getSQLType (some 10) (some 2) = "number(10, 2)"
    ∧ SnowflakeNumber.getSQLType none none = "number"
    ∧ SnowflakeTimestamp.getSQLType false none = "timestamp_ntz"
    ∧ SnowflakeTimestamp.getSQLType false (some 6) = "timestamp_ntz(6)"
    ∧ SnowflakeTimestamp.getSQLType true none = "timestamp_tz" := by
  refine ⟨rfl, rfl, rfl, rfl, rfl, rfl, rfl⟩

/-- C8: escapeName wraps any identifier in double quotes with the name
kept verbatim in between — character for character, with no case
folding — as the spec example on the name Column shows. -/
theorem snowflake_c8 (name : String) :
    escapeName name = "\"" ++ name ++ "\""
    ∧ (escapeName name).data = '"' :: name.data ++ ['"']
    ∧ escapeName "Column" = "\"Column\"" := by
  refine ⟨rfl, ?_, rfl⟩
  simp [escapeName]

/-- C9: a unique constraint over columns of a table is named by joining
the table name, the column names and the unique suffix with underscores;
a column constructed without an explicit unique name receives exactly that
derived name; a foreign key derives its name by underscore-joining the
table, its columns, the foreign table and its columns, ending in the fk
suffix. -/
theorem snowflake_c9 (tN cN ftN : String) (cols colNames fcolNames : List String) :
    uniqueKeyName tN cols = tN ++ "_" ++ String.intercalate "_" cols ++ "_unique"
    ∧ uniqueKeyName "users" ["email"] = "users_email_unique"
    ∧ uniqueKeyName "t" ["c1", "c2"] = "t_c1_c2_unique"
    ∧ resolvedUniqueName tN cN none = uniqueKeyName tN [cN]
    ∧ ForeignKey.getName tN colNames ftN fcolNames =
        String.intercalate "_" ([tN] ++ colNames ++ [ftN] ++ fcolNames) ++ "_fk"
    ∧ (∃ s, ForeignKey.getName tN colNames ftN fcolNames = s ++ "_fk")
    ∧ ForeignKey.getName "orders" ["user_id"] "users" ["id"] =
        "orders_user_id_users_id_fk" := by
  exact ⟨rfl, by decide, by decide, rfl, rfl, ⟨_, rfl⟩, by decide⟩

/-- C10: a ForeignKeyBuilder constructed with an actions object takes
both action fields verbatim from that object, so an omitted member stays
undefined rather than the no-action default, which survives only when no
actions object is passed at all. -/
theorem snowflake_c10 (a : FKActions) :
    ForeignKeyBuilder.init (some a) =
        { onUpdateAction := a.onUpdate, onDeleteAction := a.onDelete }
    ∧ ForeignKeyBuilder.init
          (some { onUpdate := none, onDelete := some UpdateDeleteAction.cascade }) =
        { onUpdateAction := none, onDeleteAction := some UpdateDeleteAction.cascade }
    ∧ ForeignKeyBuilder.init none =
        { onUpdateAction := some UpdateDeleteAction.noAction,
          onDeleteAction := some UpdateDeleteAction.noAction }
    ∧ (ForeignKeyBuilder.init
          (some { onUpdate := none, onDelete := none })).onUpdateAction ≠
        some UpdateDeleteAction.noAction := by
  refine ⟨rfl, rfl, rfl, by decide⟩

/-- C8 witness: the wrapping rule at a concrete identifier. -/
theorem snowflake_c8_witness :
    escapeName "Db" = "\"" ++ "Db" ++ "\""
    ∧ (escapeName "Db").data = '"' :: "Db".data ++ ['"']
    ∧ escapeName "Column" = "\"Column\"" :=
  snowflake_c8 "Db"

/-- C9 witness: the naming rules at concrete tables and columns. -/
theorem snowflake_c9_witness :
    uniqueKeyName "users" ["name", "email"] =
        "users" ++ "_" ++ String.intercalate "_" ["name", "email"] ++ "_unique"
    ∧ uniqueKeyName "users" ["email"] = "users_email_unique"
    ∧ uniqueKeyName "t" ["c1", "c2"] = "t_c1_c2_unique"
    ∧ resolvedUniqueName "users" "email" none = uniqueKeyName "users" ["email"]
    ∧ ForeignKey.getName "users" ["team_id"] "teams" ["id"] =
        String.intercalate "_" (["users"] ++ ["team_id"] ++ ["teams"] ++ ["id"]) ++ "_fk"
    ∧ ForeignKey.getName "orders" ["user_id"] "users" ["id"] =
        "orders_user_id_users_id_fk" := by
  have h := snowflake_c9 "users" "email" "teams" ["name", "email"] ["team_id"] ["id"]
  exact ⟨h.1, h.2.1, h.2.2.1, h.2.2.2.1, h.2.2.2.2.1, h.2.2.2.2.2.2⟩

/-- C10 witness: the builder state at a concrete partial actions
object. -/
theorem snowflake_c10_witness :
    ForeignKeyBuilder.init
        (some { onUpdate := some UpdateDeleteAction.restrict, onDelete := none }) =
        { onUpdateAction := some UpdateDeleteAction.restrict, onDeleteAction := none }
    ∧ ForeignKeyBuilder.init
          (some { onUpdate := none, onDelete := some UpdateDeleteAction.cascade }) =
        { onUpdateAction := none, onDeleteAction := some UpdateDeleteAction.cascade }
    ∧ ForeignKeyBuilder.init none =
        { onUpdateAction := some UpdateDeleteAction.noAction,
          onDeleteAction := some UpdateDeleteAction.noAction }
    ∧ (ForeignKeyBuilder.init
          (some { onUpdate := none, onDelete := none })).onUpdateAction ≠
        some UpdateDeleteAction.noAction :=
  snowflake_c10 { onUpdate := some UpdateDeleteAction.restrict, onDelete := none }

end Drizzle.Snowflake
